import Mathlib

/-!
Verification of the eco-drive Route Acquisition & Range-Feasibility Engine.

This file is a shallow embedding of the decision logic of the repository:

* `types.ts` — the data model (`RouteOption`, `ChargingStop`, `EVState`).
* `src/App.tsx` — the Range-Feasibility Partitioner (`processRangeFeasibility`),
  the trip-session state and its mutation operations (`fetchRoutes`, the
  `setSelectedRouteId` setter handed to `MapOverlay` as `onSelect`).
* the `geminiService` module (third segment of `src/unnamed/part_000`) —
  `estimateDistance`, the fallback synthesizer and `optimizeRoute`.

Modelling conventions:
* JavaScript numbers are modelled as rationals (`ℚ`); `Math.floor`,
  `Math.round` and `Number(x.toFixed(1))` become exact operations on `ℚ`
  (`jsRound`, `toFixed1` below).  The binary-rounding differences of IEEE
  doubles are not observable in any property proved here.
* optional TS fields (`mapUri?`, `chargingStops?`, `isSimulated?`) are
  `Option`s; JS truthiness checks are spelled out at each use site.
* the external provider call is a value of `ProviderOutcome`: either a thrown
  transport/quota error or a response object shaped like the `@google/genai`
  answer the source destructures (`candidates?.[0]?.content?.parts`,
  `candidates?.[0]?.groundingMetadata?.groundingChunks`).
* `JSON.parse` is modelled by an executable JSON reader (`jsonParse`), and the
  source's extraction regex (first `[`-whitespace-`{` opening, greedy up to the
  last `}`-whitespace-`]`) by `extractJson`.
* `Math.random()`-derived jitter (`Math.floor(Math.random() * 10)`) is an
  explicit parameter `jitter : ℕ`.
-/

namespace EcoDrive

/-- `types.ts`: `trafficLevel: 'Low' | 'Moderate' | 'High'`. -/
inductive TrafficLevel where
  | Low
  | Moderate
  | High
deriving DecidableEq, Repr

/-- `types.ts`: `ChargingStop` — a synthetic charging waypoint. -/
structure ChargingStop where
  id : String
  kmAt : ℚ
  label : String
deriving DecidableEq, Repr

/-- `types.ts` `RouteOption` flattened together with the optional
`isSimulated` flag added by `EnhancedRouteOption` in the gemini service
(`interface EnhancedRouteOption extends RouteOption { isSimulated?: boolean }`). -/
structure EnhancedRouteOption where
  id : String
  name : String
  distanceKm : ℚ
  durationMin : ℚ
  elevationGainM : ℚ
  elevationLossM : ℚ
  trafficLevel : TrafficLevel
  estimatedBatteryConsumption : ℚ
  isOptimal : Bool
  reasoning : String
  mapUri : Option String := none
  chargingStops : Option (List ChargingStop) := none
  isSimulated : Option Bool := none
deriving DecidableEq, Repr

/-- `App.tsx`: `const MAX_VEHICLE_RANGE = 100;`. -/
def MAX_VEHICLE_RANGE : ℚ := 100

/-- The stop list built by the loop inside `processRangeFeasibility`
(`App.tsx` lines 33–43): when `distanceKm > MAX_VEHICLE_RANGE`, push stops
`i = 1 .. Math.floor(distanceKm / MAX_VEHICLE_RANGE)` with
`id = "stop-" + i`, `kmAt = i * MAX_VEHICLE_RANGE` and the label text. -/
def computeStops (distanceKm : ℚ) : List ChargingStop :=
  if MAX_VEHICLE_RANGE < distanceKm then
    let numStops := (⌊distanceKm / MAX_VEHICLE_RANGE⌋).toNat
    (List.range numStops).map (fun k =>
      { id := "stop-" ++ toString (k + 1)
        kmAt := ((k + 1 : ℕ) : ℚ) * MAX_VEHICLE_RANGE
        label := "⚡ Charging Stop " ++ toString (k + 1) ++ " (" ++
          toString ((k + 1) * 100) ++ "km)" })
  else []

/-- `App.tsx` `processRangeFeasibility`: map over the raw routes, spreading
each route unchanged and attaching the computed `chargingStops`. -/
def processRangeFeasibility (rawRoutes : List EnhancedRouteOption) :
    List EnhancedRouteOption :=
  rawRoutes.map (fun route => { route with chargingStops := some (computeStops route.distanceKm) })

/-- `a.startsWith b` on character lists (exact prefix). -/
def listStartsWith : List Char → List Char → Bool
  | _, [] => true
  | [], _ :: _ => false
  | c :: cs, d :: ds => c = d && listStartsWith cs ds

/-- Substring test on character lists: some suffix of the haystack starts
with the needle.  Mirrors JS `String.prototype.includes`. -/
def containsSub : List Char → List Char → Bool
  | [], needle => needle.isEmpty
  | c :: rest, needle => listStartsWith (c :: rest) needle || containsSub rest needle

/-- JS `haystack.includes(needle)`. -/
def strContains (haystack needle : String) : Bool :=
  containsSub haystack.data needle.data

/-- JS `s.toLowerCase()`, character by character.  (`Char.toLower` lowers the
ASCII range; the destinations and refusal phrases compared here are ASCII.) -/
def jsToLower (s : String) : String :=
  String.mk (s.data.map Char.toLower)

/-- JS `s.trim()`: strip leading and trailing whitespace. -/
def jsTrim (s : String) : String :=
  String.mk (((s.data.dropWhile Char.isWhitespace).reverse.dropWhile
    Char.isWhitespace).reverse)

/-- JS `Math.round`: round half toward positive infinity, `⌊x + 1/2⌋`. -/
def jsRound (x : ℚ) : ℤ :=
  ⌊x + 1 / 2⌋

/-- JS `Number(x.toFixed(1))`: round to one decimal, ties toward the larger
value (ECMA `toFixed` picks the larger candidate on a tie). -/
def toFixed1 (x : ℚ) : ℚ :=
  ((⌊x * 10 + 1 / 2⌋ : ℤ) : ℚ) / 10

/-- Upper-case hexadecimal digit, as produced by `encodeURIComponent`. -/
def hexDigit (n : ℕ) : Char :=
  if n < 10 then Char.ofNat (48 + n) else Char.ofNat (55 + n)

/-- UTF-8 bytes of a character (scalar values only; Lean `Char` excludes the
surrogates on which JS `encodeURIComponent` would throw `URIError`). -/
def utf8Bytes (c : Char) : List ℕ :=
  let n := c.toNat
  if n < 128 then [n]
  else if n < 2048 then [192 + n / 64, 128 + n % 64]
  else if n < 65536 then [224 + n / 4096, 128 + (n / 64) % 64, 128 + n % 64]
  else [240 + n / 262144, 128 + (n / 4096) % 64, 128 + (n / 64) % 64, 128 + n % 64]

/-- The characters `encodeURIComponent` leaves unescaped:
`A–Z a–z 0–9 - _ . ! ~ * ' ( )`. -/
def uriUnreserved (c : Char) : Bool :=
  c.isAlphanum || c = '-' || c = '_' || c = '.' || c = '!' || c = '~' ||
    c = '*' || c = '(' || c = ')' || c = Char.ofNat 39

/-- JS `encodeURIComponent`: copy unreserved characters, percent-encode the
UTF-8 bytes of everything else with upper-case hex. -/
def encodeURIComponent (s : String) : String :=
  String.mk ((s.data.map (fun c =>
    if uriUnreserved c then [c]
    else ((utf8Bytes c).map (fun b => ['%', hexDigit (b / 16), hexDigit (b % 16)])).flatten)).flatten)

/-- The deterministic Google-Maps search link the service builds from the
destination text. -/
def searchLink (destination : String) : String :=
  "https://www.google.com/maps/search/" ++ encodeURIComponent destination

/-- `LOCAL_DISTANCE_ESTIMATOR` from the gemini service, in source (insertion)
order — `Object.entries` of a string-keyed literal enumerates in that order. -/
def LOCAL_DISTANCE_ESTIMATOR : List (String × ℚ) :=
  [("chennai", 32), ("marina", 35), ("tambaram", 12), ("guindy", 24),
   ("pondy", 120), ("pondicherry", 120), ("bangalore", 330), ("bengaluru", 330),
   ("coimbatore", 480), ("madurai", 430), ("vellore", 120), ("vit vellore", 125),
   ("airport", 18), ("chennai airport", 18), ("thiruvanmiyur", 28), ("adyar", 30)]

/-- `estimateDistance` from the gemini service: normalize (lower-case, trim),
return the first table entry whose key is a substring of the normalized text,
else `15 + 2 * destination.length` plus the random jitter (the
`Math.floor(Math.random() * 10)` draw is the explicit `jitter` argument).
Lean `String.length` counts code points where JS counts UTF-16 units; they
agree on all text below the astral planes. -/
def estimateDistance (destination : String) (jitter : ℕ) : ℚ :=
  let normalized := jsTrim (jsToLower destination)
  match LOCAL_DISTANCE_ESTIMATOR.find? (fun kv => strContains normalized kv.1) with
  | some kv => kv.2
  | none => (15 : ℚ) + (destination.length : ℚ) * 2 + (jitter : ℚ)

/-- The three improvised candidates built in the `catch` branch of
`optimizeRoute` (gemini service).  `toString estimatedDist` renders rationals
differently from JS number formatting for non-integers; no property below
inspects the `reasoning` text. -/
def fallbackRoutes (destination : String) (currentBattery : ℚ) (jitter : ℕ) :
    List EnhancedRouteOption :=
  let estimatedDist := estimateDistance destination jitter
  let estimatedTime : ℚ := ((jsRound (estimatedDist * 1.8) : ℤ) : ℚ)
  let baseConsumption := min (currentBattery - 5) (estimatedDist / 100 * 20)
  [{ id := "1"
     name := "Improvised Eco-Optimal"
     distanceKm := estimatedDist
     durationMin := estimatedTime
     elevationGainM := 20
     elevationLossM := 10
     trafficLevel := TrafficLevel.Low
     estimatedBatteryConsumption := toFixed1 (baseConsumption * 0.9)
     isOptimal := true
     reasoning := "SIMULATED: Estimated " ++ toString estimatedDist ++
       "km distance from VIT Chennai based on destination heuristics."
     mapUri := some (searchLink destination)
     chargingStops := none
     isSimulated := some true },
   { id := "2"
     name := "Improvised Fast-Path"
     distanceKm := toFixed1 (estimatedDist * 1.1)
     durationMin := ((jsRound (estimatedTime * 0.8) : ℤ) : ℚ)
     elevationGainM := 40
     elevationLossM := 30
     trafficLevel := TrafficLevel.Moderate
     estimatedBatteryConsumption := toFixed1 (baseConsumption * 1.3)
     isOptimal := false
     reasoning := "SIMULATED: Highway estimation with moderate traffic modeling."
     mapUri := some (searchLink destination)
     chargingStops := none
     isSimulated := some true },
   { id := "3"
     name := "Improvised Balanced"
     distanceKm := toFixed1 (estimatedDist * 1.05)
     durationMin := ((jsRound (estimatedTime * 0.95) : ℤ) : ℚ)
     elevationGainM := 30
     elevationLossM := 20
     trafficLevel := TrafficLevel.Moderate
     estimatedBatteryConsumption := toFixed1 baseConsumption
     isOptimal := false
     reasoning := "SIMULATED: Balanced route considering distance and traffic standard deviation."
     mapUri := some (searchLink destination)
     chargingStops := none
     isSimulated := some true }]

/-- JavaScript values as produced by `JSON.parse`. -/
inductive Json where
  | null
  | bool (b : Bool)
  | num (q : ℚ)
  | str (s : String)
  | arr (elems : List Json)
  | obj (fields : List (String × Json))

/-- JS property assignment `o[k] = v` on a plain object: overwrite the value
in place if the key exists (keeping its position), else append the key.
`JSON.parse` member insertion has the same semantics, so a duplicated key in
a JSON text keeps its first position with the last value. -/
def setField : List (String × Json) → String → Json → List (String × Json)
  | [], k, v => [(k, v)]
  | (k', v') :: rest, k, v =>
    if k' = k then (k, v) :: rest else (k', v') :: setField rest k v

/-- JS property read `o[k]` on a plain object (absent property → `none`). -/
def getField (fields : List (String × Json)) (k : String) : Option Json :=
  (fields.find? (fun kv => kv.1 = k)).map (fun kv => kv.2)

/-- Property read on an arbitrary JS value; only plain objects expose the
route fields the engine inspects. -/
def objField : Json → String → Option Json
  | Json.obj fields, k => getField fields k
  | _, _ => none

/-- Hexadecimal digit value (both cases), for `\u` escapes. -/
def hexVal (c : Char) : Option ℕ :=
  if c.isDigit then some (c.toNat - 48)
  else if 65 ≤ c.toNat && c.toNat ≤ 70 then some (c.toNat - 55)
  else if 97 ≤ c.toNat && c.toNat ≤ 102 then some (c.toNat - 87)
  else none

/-- The four JSON whitespace characters (space, tab, LF, CR). -/
def isJsonWs (c : Char) : Bool :=
  c = ' ' || c = Char.ofNat 9 || c = Char.ofNat 10 || c = Char.ofNat 13

/-- Drop leading JSON whitespace. -/
def skipWs : List Char → List Char
  | [] => []
  | c :: rest => if isJsonWs c then skipWs rest else c :: rest

/-- Parse the body of a JSON string (the opening quote already consumed),
returning the decoded string and the input after the closing quote.
Escapes `\" \\ \/ \b \f \n \r \t \uXXXX` are decoded; raw control characters
are rejected as `JSON.parse` does.  A `\u` escape denoting a surrogate is
rejected (a lone UTF-16 unit has no Lean `Char`; no input in this
development contains one). -/
def parseStringBody : ℕ → List Char → Option (String × List Char)
  | 0, _ => none
  | _, [] => none
  | fuel + 1, c :: rest =>
    if c = Char.ofNat 34 then some ("", rest)
    else if c = Char.ofNat 92 then
      match rest with
      | [] => none
      | e :: rest2 =>
        let simple : Option Char :=
          if e = Char.ofNat 34 then some (Char.ofNat 34)
          else if e = Char.ofNat 92 then some (Char.ofNat 92)
          else if e = Char.ofNat 47 then some (Char.ofNat 47)
          else if e = 'b' then some (Char.ofNat 8)
          else if e = 'f' then some (Char.ofNat 12)
          else if e = 'n' then some (Char.ofNat 10)
          else if e = 'r' then some (Char.ofNat 13)
          else if e = 't' then some (Char.ofNat 9)
          else none
        match simple with
        | some ch =>
          (parseStringBody fuel rest2).map (fun sr => (String.mk (ch :: sr.1.data), sr.2))
        | none =>
          if e = 'u' then
            match rest2 with
            | h1 :: h2 :: h3 :: h4 :: rest3 =>
              match hexVal h1, hexVal h2, hexVal h3, hexVal h4 with
              | some a, some b, some c2, some d =>
                let n := ((a * 16 + b) * 16 + c2) * 16 + d
                if 55296 ≤ n && n < 57344 then none
                else (parseStringBody fuel rest3).map
                  (fun sr => (String.mk (Char.ofNat n :: sr.1.data), sr.2))
              | _, _, _, _ => none
            | _ => none
          else none
    else if c.toNat < 32 then none
    else (parseStringBody fuel rest).map (fun sr => (String.mk (c :: sr.1.data), sr.2))

/-- Split off a maximal run of decimal digits. -/
def takeDigits : List Char → List Char × List Char
  | [] => ([], [])
  | c :: rest =>
    if c.isDigit then
      let p := takeDigits rest
      (c :: p.1, p.2)
    else ([], c :: rest)

/-- Numeric value of a digit run. -/
def digitsToNat (ds : List Char) : ℕ :=
  ds.foldl (fun acc c => acc * 10 + (c.toNat - 48)) 0

/-- JSON number grammar `-? (0 | [1-9][0-9]*) (. [0-9]+)? ([eE][+-]?[0-9]+)?`,
evaluated exactly in `ℚ` (JSON.parse would round to the nearest double; the
difference is not observable in the properties below). -/
def parseNumber (l : List Char) : Option (ℚ × List Char) := do
  let sign : Bool × List Char :=
    match l with
    | c :: rest => if c = '-' then (true, rest) else (false, l)
    | [] => (false, [])
  let ip := takeDigits sign.2
  if ip.1 = [] then none
  else if ip.1.head? = some '0' && 1 < ip.1.length then none
  else
    let intVal : ℚ := (digitsToNat ip.1 : ℕ)
    let step1 : Option (ℚ × List Char) :=
      match ip.2 with
      | c :: rest =>
        if c = '.' then
          let fp := takeDigits rest
          if fp.1 = [] then none
          else some (intVal + (digitsToNat fp.1 : ℚ) / ((10 : ℚ) ^ fp.1.length), fp.2)
        else some (intVal, ip.2)
      | [] => some (intVal, ip.2)
    let m ← step1
    let step2 : Option (ℚ × List Char) :=
      match m.2 with
      | c :: rest =>
        if c = 'e' || c = 'E' then
          let se : Bool × List Char :=
            match rest with
            | c2 :: r2 =>
              if c2 = '+' then (false, r2)
              else if c2 = '-' then (true, r2)
              else (false, rest)
            | [] => (false, rest)
          let ep := takeDigits se.2
          if ep.1 = [] then none
          else
            let e := digitsToNat ep.1
            some (if se.1 then m.1 / (10 : ℚ) ^ e else m.1 * (10 : ℚ) ^ e, ep.2)
        else some m
      | [] => some m
    let v ← step2
    some (if sign.1 then (-v.1, v.2) else v)

mutual

/-- Recursive-descent JSON value reader (fuel-indexed; the fuel passed at the
top level is ample for any input the fuel bound below admits). -/
def parseValue : ℕ → List Char → Option (Json × List Char)
  | 0, _ => none
  | fuel + 1, l =>
    match skipWs l with
    | [] => none
    | c :: rest =>
      if c = Char.ofNat 123 then parseObjRest fuel rest
      else if c = '[' then parseArrRest fuel rest
      else if c = Char.ofNat 34 then
        (parseStringBody (rest.length + 1) rest).map (fun sr => (Json.str sr.1, sr.2))
      else if c = 't' then
        match rest with
        | 'r' :: 'u' :: 'e' :: r => some (Json.bool true, r)
        | _ => none
      else if c = 'f' then
        match rest with
        | 'a' :: 'l' :: 's' :: 'e' :: r => some (Json.bool false, r)
        | _ => none
      else if c = 'n' then
        match rest with
        | 'u' :: 'l' :: 'l' :: r => some (Json.null, r)
        | _ => none
      else (parseNumber (c :: rest)).map (fun qr => (Json.num qr.1, qr.2))

/-- After an opening `[`: empty array or first element. -/
def parseArrRest : ℕ → List Char → Option (Json × List Char)
  | 0, _ => none
  | fuel + 1, l =>
    match skipWs l with
    | [] => none
    | c :: rest =>
      if c = ']' then some (Json.arr [], rest)
      else
        match parseValue fuel l with
        | some vr => parseArrItems fuel [vr.1] vr.2
        | none => none

/-- After at least one array element: `,` and the next element, or `]`. -/
def parseArrItems : ℕ → List Json → List Char → Option (Json × List Char)
  | 0, _, _ => none
  | fuel + 1, acc, l =>
    match skipWs l with
    | [] => none
    | c :: rest =>
      if c = ',' then
        match parseValue fuel rest with
        | some vr => parseArrItems fuel (acc ++ [vr.1]) vr.2
        | none => none
      else if c = ']' then some (Json.arr acc, rest)
      else none

/-- After an opening `{`: empty object or first member key. -/
def parseObjRest : ℕ → List Char → Option (Json × List Char)
  | 0, _ => none
  | fuel + 1, l =>
    match skipWs l with
    | [] => none
    | c :: rest =>
      if c = Char.ofNat 125 then some (Json.obj [], rest)
      else if c = Char.ofNat 34 then
        match parseStringBody (rest.length + 1) rest with
        | some kr => parseObjMember fuel [] kr.1 kr.2
        | none => none
      else none

/-- After a member key: `:`, the value, then continue with the member list. -/
def parseObjMember : ℕ → List (String × Json) → String → List Char →
    Option (Json × List Char)
  | 0, _, _, _ => none
  | fuel + 1, acc, k, l =>
    match skipWs l with
    | [] => none
    | c :: rest =>
      if c = ':' then
        match parseValue fuel rest with
        | some vr => parseObjItems fuel (setField acc k vr.1) vr.2
        | none => none
      else none

/-- After at least one object member: `,` and the next key, or `}`. -/
def parseObjItems : ℕ → List (String × Json) → List Char → Option (Json × List Char)
  | 0, _, _ => none
  | fuel + 1, acc, l =>
    match skipWs l with
    | [] => none
    | c :: rest =>
      if c = ',' then
        match skipWs rest with
        | [] => none
        | c2 :: rest2 =>
          if c2 = Char.ofNat 34 then
            match parseStringBody (rest2.length + 1) rest2 with
            | some kr => parseObjMember fuel acc kr.1 kr.2
            | none => none
          else none
      else if c = Char.ofNat 125 then some (Json.obj acc, rest)
      else none

end

/-- `JSON.parse`: a single JSON value, possibly surrounded by whitespace;
anything else throws (here: `none`). -/
def jsonParse (s : String) : Option Json :=
  match parseValue (s.length * 4 + 16) s.data with
  | some vr => if skipWs vr.2 = [] then some vr.1 else none
  | none => none

/-- After an opening `[`, does `\s*\{` match?  (`\s*` is greedy but `{` is
not whitespace, so the boundary is deterministic.) -/
def openAfterWs : List Char → Bool
  | [] => false
  | c :: rest =>
    if c = Char.ofNat 123 then true
    else if c.isWhitespace then openAfterWs rest else false

/-- Index of the first position where the regex prefix `\[\s*\{` matches —
the leftmost possible start of a match of `/\[\s*\{[\s\S]*\}\s*\]/`. -/
def firstOpen : List Char → Option ℕ
  | [] => none
  | c :: rest =>
    if c = '[' && openAfterWs rest then some 0
    else (firstOpen rest).map (fun n => n + 1)

/-- After a `}`: index of the `]` reached by `\s*\]` (whitespace characters
are never `]`, so again deterministic). -/
def wsThenClose : List Char → Option ℕ
  | [] => none
  | c :: rest =>
    if c = ']' then some 0
    else if c.isWhitespace then (wsThenClose rest).map (fun n => n + 1)
    else none

/-- End index (inclusive) of the greedy match: the backtracking of the greedy
`[\s\S]*` selects the largest `j` with `l[j] = '}'` followed by `\s*\]`; the
match then ends at that `]`. -/
def lastCloseEnd (l : List Char) : Option ℕ :=
  ((List.range l.length).filterMap (fun j =>
    if l.get? j = some (Char.ofNat 125) then
      (wsThenClose (l.drop (j + 1))).map (fun k => j + 1 + k)
    else none)).getLast?

/-- The source's extraction step:
`const jsonMatch = text.match(/\[\s*\{[\s\S]*\}\s*\]/);`
`const jsonString = jsonMatch ? jsonMatch[0] : text.trim();`
The match, when it exists, runs from the first `\[\s*\{` opening to the last
`\}\s*\]` closing after it.  (Lean `Char.isWhitespace` covers the ASCII
whitespace of JS `\s`; the exotic Unicode space characters never occur in the
inputs evaluated here.) -/
def extractJson (text : String) : String :=
  let l := text.data
  match firstOpen l with
  | some i =>
    let sub := l.drop i
    match lastCloseEnd sub with
    | some e => String.mk (sub.take (e + 1))
    | none => jsTrim text
  | none => jsTrim text

/-- `maps?.uri` of a grounding chunk. -/
structure MapsInfo where
  uri : Option String
deriving DecidableEq, Repr

/-- One element of `groundingMetadata.groundingChunks`. -/
structure GroundingChunk where
  maps : Option MapsInfo
deriving DecidableEq, Repr

/-- One element of `content.parts` (only `text` is read). -/
structure Part where
  text : Option String
deriving DecidableEq, Repr

/-- `candidate.content`. -/
structure Content where
  parts : Option (List Part)
deriving DecidableEq, Repr

/-- `candidate.groundingMetadata`. -/
structure GroundingMetadata where
  groundingChunks : Option (List GroundingChunk)
deriving DecidableEq, Repr

/-- One entry of `response.candidates`. -/
structure Candidate where
  content : Option Content
  groundingMetadata : Option GroundingMetadata
deriving DecidableEq, Repr

/-- The shape of the `generateContent` answer the source destructures. -/
structure GenResponse where
  candidates : Option (List Candidate)
deriving DecidableEq, Repr

/-- `response.candidates?.[0]?.content?.parts` mapped over
`part.text || ""`, joined and trimmed; the optional chain collapsing to
`undefined` leaves `text = ""`. -/
def responseText (response : GenResponse) : String :=
  jsTrim
    (match ((response.candidates.bind List.head?).bind Candidate.content).bind Content.parts with
     | some parts => String.join (parts.map (fun (p : Part) => p.text.getD ""))
     | none => "")

/-- `response.candidates?.[0]?.groundingMetadata?.groundingChunks`. -/
def groundingChunksOf (response : GenResponse) : Option (List GroundingChunk) :=
  ((response.candidates.bind List.head?).bind Candidate.groundingMetadata).bind
    GroundingMetadata.groundingChunks

/-- The refusal test of the source:
`!text || text.toLowerCase().includes("i am sorry") || text.toLowerCase().includes("cannot fulfill")`. -/
def isRefusal (text : String) : Bool :=
  text.isEmpty || strContains (jsToLower text) "i am sorry" ||
    strContains (jsToLower text) "cannot fulfill"

/-- `chunk.maps?.uri`. -/
def chunkUri (c : GroundingChunk) : Option String :=
  c.maps.bind MapsInfo.uri

/-- `groundingChunks.find(chunk => chunk.maps?.uri)?.maps?.uri`: the uri of
the first chunk whose `maps?.uri` is truthy (present and non-empty). -/
def mapsChunkUri (chunks : List GroundingChunk) : Option String :=
  (chunks.find? (fun c =>
    match chunkUri c with
    | some s => !s.isEmpty
    | none => false)).bind chunkUri

/-- The uri written by the stamping loop:
`mapsChunk?.maps?.uri || searchLink` — the found uri when truthy, else the
deterministic search link. -/
def stampUri (chunks : List GroundingChunk) (destination : String) : String :=
  match mapsChunkUri chunks with
  | some s => if s.isEmpty then searchLink destination else s
  | none => searchLink destination

/-- The per-route body of the stamping loop
`routes.forEach((route) => { route.mapUri = mapsChunk?.maps?.uri || link; route.isSimulated = false; })`.
On a plain object the two properties are written in that order.  On a
primitive element strict-mode JS throws `TypeError` (→ `none`, landing in the
catch).  On an array element the property write succeeds in JS but adds
non-index properties our `Json.arr` cannot carry; the value is passed through
unchanged (no property below reads fields of array elements). -/
def stampRoute (chunks : List GroundingChunk) (destination : String) :
    Json → Option Json
  | Json.obj fields =>
    some (Json.obj (setField (setField fields "mapUri"
      (Json.str (stampUri chunks destination))) "isSimulated" (Json.bool false)))
  | Json.arr l => some (Json.arr l)
  | _ => none

/-- The stamping `forEach` over the parsed array: stamp each element in
order, aborting (→ catch) on the first element that throws. -/
def stampAll (chunks : List GroundingChunk) (destination : String) :
    List Json → Option (List Json)
  | [] => some []
  | e :: rest =>
    match stampRoute chunks destination e with
    | none => none
    | some e2 =>
      match stampAll chunks destination rest with
      | none => none
      | some rest2 => some (e2 :: rest2)

/-- Outcome of `ai.models.generateContent(...)`: a response object, or a
thrown transport/quota error. -/
inductive ProviderOutcome where
  | ok (response : GenResponse)
  | err (message : String)

/-- What `optimizeRoute` resolves to: the raw `JSON.parse` value passed
through the unchecked cast of the success path, or the synthesized fallback
list of the catch path. -/
inductive OptResult where
  | parsed (value : Json)
  | fallback (routes : List EnhancedRouteOption)

/-- "The resolved value is a non-empty candidate list", read on the two
result shapes: a parsed value qualifies only when it is a non-empty JSON
array; a fallback list qualifies when non-empty. -/
def nonEmptyCandidateList : OptResult → Prop
  | OptResult.parsed (Json.arr l) => l ≠ []
  | OptResult.parsed _ => False
  | OptResult.fallback rs => rs ≠ []

/-- `optimizeRoute` from the gemini service (third segment of
`src/unnamed/part_000`, lines 363–494): every failure inside the `try`
(thrown call, refusal or empty text, parse failure, strict-mode stamping
`TypeError`) lands in the `catch`, which returns the improvised candidates;
a successful parse is returned as-is, stamped with `mapUri`/`isSimulated`
only when `groundingChunks` is truthy and the value is an array.  The prompt
string only feeds the provider, whose answer is already the `outcome`
argument, so it is not re-built here. -/
def optimizeRoute (outcome : ProviderOutcome) (destination : String)
    (currentBattery : ℚ) (jitter : ℕ) : OptResult :=
  match outcome with
  | ProviderOutcome.err _ =>
    OptResult.fallback (fallbackRoutes destination currentBattery jitter)
  | ProviderOutcome.ok response =>
    let text := responseText response
    if isRefusal text then
      OptResult.fallback (fallbackRoutes destination currentBattery jitter)
    else
      let jsonString := extractJson text
      match jsonParse jsonString with
      | none => OptResult.fallback (fallbackRoutes destination currentBattery jitter)
      | some routes =>
        match groundingChunksOf response with
        | some chunks =>
          match routes with
          | Json.arr elems =>
            match stampAll chunks destination elems with
            | some elems2 => OptResult.parsed (Json.arr elems2)
            | none =>
              OptResult.fallback (fallbackRoutes destination currentBattery jitter)
          | _ => OptResult.parsed routes
        | none => OptResult.parsed routes

/-- The React state of `App.tsx` that the session operations touch. -/
structure AppState where
  routes : List EnhancedRouteOption
  selectedRouteId : String
  loading : Bool
  isUpdating : Bool
  isSimulated : Bool
  activeDestination : String
deriving DecidableEq, Repr

/-- `fetchRoutes` from `App.tsx` as a state transformer.  The awaited
`optimizeRoute(...)` value is the `acq` argument: `Except.error` is the
promise rejecting (an error the acquisition client did not recover).  The
sequence of `set*` calls is replayed in source order; if the route list is
empty, `routesWithStops.find(...) || routesWithStops[0]` is `undefined` and
`optimal.id` throws after `routes`/`isSimulated` were already set, skipping
the selection and destination updates.  A non-list acquisition value would
make `rawRoutes.map` throw before any update, which the `.error` case also
covers.  `finally` always clears both flags. -/
def fetchRoutes (st : AppState) (target : String)
    (acq : Except String (List EnhancedRouteOption)) : AppState :=
  let st1 : AppState := { st with isUpdating := true }
  let st2 : AppState :=
    match acq with
    | Except.error _ => st1
    | Except.ok rawRoutes =>
      let routesWithStops := processRangeFeasibility rawRoutes
      let stA : AppState := { st1 with
        routes := routesWithStops
        isSimulated := routesWithStops.any (fun r => r.isSimulated = some true) }
      match (routesWithStops.find? (fun r => r.isOptimal)).orElse
          (fun _ => routesWithStops.head?) with
      | some optimal =>
        { stA with selectedRouteId := optimal.id, activeDestination := target }
      | none => stA
  { st2 with isUpdating := false, loading := false }

/-- The select-route operation: `App.tsx` passes the raw React setter
`setSelectedRouteId` to `MapOverlay` as `onSelect`, and the overlay buttons
call `onSelect(route.id)`.  The setter updates `selectedRouteId`
unconditionally — there is no membership check anywhere. -/
def selectRoute (st : AppState) (routeId : String) : AppState :=
  { st with selectedRouteId := routeId }

/-- Concrete route used to evaluate the partitioner (distance 250 km → two
stops at 100 km and 200 km, spec §8 Scenario A). -/
def routeFixture : EnhancedRouteOption :=
  { id := "1"
    name := "Test Route"
    distanceKm := 250
    durationMin := 300
    elevationGainM := 12
    elevationLossM := 7
    trafficLevel := TrafficLevel.Low
    estimatedBatteryConsumption := 40
    isOptimal := true
    reasoning := "fixture" }

/-- A one-route list for evaluating the partitioner at index 0. -/
def rsFixture : List EnhancedRouteOption :=
  [routeFixture]

/-- A session state with one candidate whose id is "1". -/
def sessionFixture : AppState :=
  { routes := [routeFixture]
    selectedRouteId := "1"
    loading := false
    isUpdating := false
    isSimulated := false
    activeDestination := "VIT Chennai" }

/-- Provider response whose only part is the text `[]`: non-empty, not a
refusal, and `JSON.parse` succeeds with an empty array. -/
def respEmptyArr : GenResponse :=
  { candidates := some
      [{ content := some { parts := some [{ text := some "[]" }] }
         groundingMetadata := none }] }

/-- Provider response with a parseable one-route array but no grounding
metadata (the `groundingChunks &&` guard of the source then skips all
stamping). -/
def respNoGround : GenResponse :=
  { candidates := some
      [{ content := some { parts := some [{ text := some "[\x7b\"id\": \"1\"\x7d]" }] }
         groundingMetadata := none }] }

/-- Provider response with a parseable one-route array and one grounding
chunk carrying a maps uri. -/
def respGround : GenResponse :=
  { candidates := some
      [{ content := some { parts := some [{ text := some "[\x7b\"id\": \"1\"\x7d]" }] }
         groundingMetadata := some
           { groundingChunks := some [{ maps := some { uri := some "https://maps.example/route" } }] } }] }

/-! ## Helper lemmas -/

theorem toFixed1_mono {x y : ℚ} (h : x ≤ y) : toFixed1 x ≤ toFixed1 y := by
  unfold toFixed1
  have h2 : ((⌊x * 10 + 1 / 2⌋ : ℤ) : ℚ) ≤ ((⌊y * 10 + 1 / 2⌋ : ℤ) : ℚ) := by
    exact_mod_cast Int.floor_le_floor (by linarith)
  linarith

theorem jsRound_mono {x y : ℚ} (h : x ≤ y) : jsRound x ≤ jsRound y :=
  Int.floor_le_floor (by linarith)

theorem jsRound_intCast (t : ℤ) : jsRound ((t : ℤ) : ℚ) = t := by
  unfold jsRound
  rw [Int.floor_int_add]
  norm_num

theorem jsRound_nonneg {x : ℚ} (h : 0 ≤ x) : 0 ≤ jsRound x := by
  unfold jsRound
  exact Int.le_floor.2 (by push_cast; linarith)

theorem estimateDistance_pos (destination : String) (jitter : ℕ) :
    0 < estimateDistance destination jitter := by
  unfold estimateDistance
  cases hf : LOCAL_DISTANCE_ESTIMATOR.find?
      (fun kv => strContains (jsTrim (jsToLower destination)) kv.1) with
  | none =>
    simp only [hf]
    positivity
  | some kv =>
    have hmem := List.mem_of_find?_eq_some hf
    have hpos : ∀ p ∈ LOCAL_DISTANCE_ESTIMATOR, (0 : ℚ) < p.2 := by decide
    simp only [hf]
    exact hpos kv hmem

theorem computeStops_length_of_gt {d : ℚ} (h : MAX_VEHICLE_RANGE < d) :
    (computeStops d).length = (⌊d / MAX_VEHICLE_RANGE⌋).toNat := by
  unfold computeStops
  rw [if_pos h]
  simp

theorem computeStops_getElem? {d : ℚ} (h : MAX_VEHICLE_RANGE < d)
    (j : ℕ) (hj : j < (⌊d / MAX_VEHICLE_RANGE⌋).toNat) :
    (computeStops d)[j]? = some
      { id := "stop-" ++ toString (j + 1)
        kmAt := ((j + 1 : ℕ) : ℚ) * MAX_VEHICLE_RANGE
        label := "⚡ Charging Stop " ++ toString (j + 1) ++ " (" ++
          toString ((j + 1) * 100) ++ "km)" } := by
  unfold computeStops
  rw [if_pos h]
  simp [List.getElem?_map, List.getElem?_range, hj]

theorem computeStops_get_of_gt {d : ℚ} (h : MAX_VEHICLE_RANGE < d)
    (j : ℕ) (hj : j < (computeStops d).length) :
    ((computeStops d).get ⟨j, hj⟩).kmAt = ((j + 1 : ℕ) : ℚ) * MAX_VEHICLE_RANGE ∧
    ((computeStops d).get ⟨j, hj⟩).id = "stop-" ++ toString (j + 1) := by
  have hj' : j < (⌊d / MAX_VEHICLE_RANGE⌋).toNat := by
    rwa [computeStops_length_of_gt h] at hj
  have h1 := computeStops_getElem? h j hj'
  rw [List.getElem?_eq_getElem hj] at h1
  injection h1 with h2
  rw [List.get_eq_getElem, h2]
  exact ⟨rfl, rfl⟩

theorem computeStops_of_le {d : ℚ} (h : d ≤ MAX_VEHICLE_RANGE) :
    computeStops d = [] := by
  unfold computeStops
  rw [if_neg (not_lt.2 h)]

theorem computeStops_ne_nil {d : ℚ} (h : MAX_VEHICLE_RANGE < d) :
    computeStops d ≠ [] := by
  have hlen := computeStops_length_of_gt h
  have h1 : (1 : ℤ) ≤ ⌊d / MAX_VEHICLE_RANGE⌋ := by
    apply Int.le_floor.2
    rw [le_div_iff₀ (by norm_num [MAX_VEHICLE_RANGE])]
    push_cast
    simp only [MAX_VEHICLE_RANGE] at h ⊢
    linarith
  intro hnil
  rw [hnil] at hlen
  simp only [List.length_nil] at hlen
  omega

/-! ## Claim C1: the Range-Feasibility Partitioner -/

/-- Claim C1: for every route list and every route in it,
`processRangeFeasibility` (with `MAX_VEHICLE_RANGE = 100`) attaches exactly
`⌊distanceKm / 100⌋` charging stops when `distanceKm > 100`, the `i`-th stop
(1-indexed) having `kmAt = i * 100` and id `"stop-i"`; it attaches an empty
stop list when `distanceKm ≤ 100`; and `distanceKm > 100` holds iff the
route's stop list is non-empty. -/
theorem claim_C1 (rs : List EnhancedRouteOption) (i : ℕ)
    (r : EnhancedRouteOption) (hr : rs[i]? = some r) :
    ∃ r', (processRangeFeasibility rs)[i]? = some r' ∧
      (MAX_VEHICLE_RANGE < r.distanceKm →
        ∃ stops, r'.chargingStops = some stops ∧
          stops.length = (⌊r.distanceKm / MAX_VEHICLE_RANGE⌋).toNat ∧
          ∀ j, ∀ hj : j < stops.length,
            (stops.get ⟨j, hj⟩).kmAt = ((j + 1 : ℕ) : ℚ) * MAX_VEHICLE_RANGE ∧
            (stops.get ⟨j, hj⟩).id = "stop-" ++ toString (j + 1)) ∧
      (r.distanceKm ≤ MAX_VEHICLE_RANGE → r'.chargingStops = some []) ∧
      (MAX_VEHICLE_RANGE < r.distanceKm ↔
        ∃ stops, r'.chargingStops = some stops ∧ stops ≠ []) := by
  refine ⟨{ r with chargingStops := some (computeStops r.distanceKm) }, ?_, ?_, ?_, ?_⟩
  · simp [processRangeFeasibility, List.getElem?_map, hr]
  · intro h
    exact ⟨computeStops r.distanceKm, rfl, computeStops_length_of_gt h,
      fun j hj => computeStops_get_of_gt h j hj⟩
  · intro h
    simp [computeStops_of_le h]
  · constructor
    · intro h
      exact ⟨computeStops r.distanceKm, rfl, computeStops_ne_nil h⟩
    · rintro ⟨stops, hs, hne⟩
      by_contra hle
      push_neg at hle
      rw [computeStops_of_le hle] at hs
      injection hs with hs'
      exact hne hs'.symm

/-- Concrete evaluation of claim C1 at a 250 km route (spec Scenario A). -/
theorem claim_C1_witness :
    rsFixture[0]? = some routeFixture ∧
    (∃ r', (processRangeFeasibility rsFixture)[0]? = some r' ∧
      (MAX_VEHICLE_RANGE < routeFixture.distanceKm →
        ∃ stops, r'.chargingStops = some stops ∧
          stops.length = (⌊routeFixture.distanceKm / MAX_VEHICLE_RANGE⌋).toNat ∧
          ∀ j, ∀ hj : j < stops.length,
            (stops.get ⟨j, hj⟩).kmAt = ((j + 1 : ℕ) : ℚ) * MAX_VEHICLE_RANGE ∧
            (stops.get ⟨j, hj⟩).id = "stop-" ++ toString (j + 1)) ∧
      (routeFixture.distanceKm ≤ MAX_VEHICLE_RANGE → r'.chargingStops = some []) ∧
      (MAX_VEHICLE_RANGE < routeFixture.distanceKm ↔
        ∃ stops, r'.chargingStops = some stops ∧ stops ≠ [])) :=
  ⟨rfl, claim_C1 rsFixture 0 routeFixture rfl⟩

/-! ## Claim C10: idempotence and frame preservation of the partitioner -/

/-- Claim C10: applying `processRangeFeasibility` twice equals applying it
once, and every field other than `chargingStops` of each output route equals
the corresponding input field. -/
theorem claim_C10 (rs : List EnhancedRouteOption) (i : ℕ)
    (r : EnhancedRouteOption) (hr : rs[i]? = some r) :
    processRangeFeasibility (processRangeFeasibility rs) = processRangeFeasibility rs ∧
    ∃ r', (processRangeFeasibility rs)[i]? = some r' ∧
      r'.id = r.id ∧ r'.name = r.name ∧ r'.distanceKm = r.distanceKm ∧
      r'.durationMin = r.durationMin ∧ r'.elevationGainM = r.elevationGainM ∧
      r'.elevationLossM = r.elevationLossM ∧ r'.trafficLevel = r.trafficLevel ∧
      r'.estimatedBatteryConsumption = r.estimatedBatteryConsumption ∧
      r'.isOptimal = r.isOptimal ∧ r'.reasoning = r.reasoning ∧
      r'.mapUri = r.mapUri ∧ r'.isSimulated = r.isSimulated := by
  constructor
  · unfold processRangeFeasibility
    rw [List.map_map]
    exact List.map_congr_left (fun a _ => rfl)
  · refine ⟨{ r with chargingStops := some (computeStops r.distanceKm) }, ?_,
      rfl, rfl, rfl, rfl, rfl, rfl, rfl, rfl, rfl, rfl, rfl, rfl⟩
    simp [processRangeFeasibility, List.getElem?_map, hr]

/-- Concrete evaluation of claim C10 at the fixture list. -/
theorem claim_C10_witness :
    rsFixture[0]? = some routeFixture ∧
    (processRangeFeasibility (processRangeFeasibility rsFixture) =
      processRangeFeasibility rsFixture ∧
    ∃ r', (processRangeFeasibility rsFixture)[0]? = some r' ∧
      r'.id = routeFixture.id ∧ r'.name = routeFixture.name ∧
      r'.distanceKm = routeFixture.distanceKm ∧
      r'.durationMin = routeFixture.durationMin ∧
      r'.elevationGainM = routeFixture.elevationGainM ∧
      r'.elevationLossM = routeFixture.elevationLossM ∧
      r'.trafficLevel = routeFixture.trafficLevel ∧
      r'.estimatedBatteryConsumption = routeFixture.estimatedBatteryConsumption ∧
      r'.isOptimal = routeFixture.isOptimal ∧ r'.reasoning = routeFixture.reasoning ∧
      r'.mapUri = routeFixture.mapUri ∧ r'.isSimulated = routeFixture.isSimulated) :=
  ⟨rfl, claim_C10 rsFixture 0 routeFixture rfl⟩

/-! ## Claim C2: `optimizeRoute` always resolves -/

/-- Claim C2 fails as stated: a provider response whose text is `[]` is a
success (non-empty, no refusal phrasing, parses), and `optimizeRoute`
resolves with the parsed empty array — not a non-empty candidate list. -/
theorem claim_C2_counterexample :
    optimizeRoute (ProviderOutcome.ok respEmptyArr) "VIT Chennai" 100 0 =
      OptResult.parsed (Json.arr []) ∧
    ¬ nonEmptyCandidateList
      (optimizeRoute (ProviderOutcome.ok respEmptyArr) "VIT Chennai" 100 0) := by
  have h : optimizeRoute (ProviderOutcome.ok respEmptyArr) "VIT Chennai" 100 0 =
      OptResult.parsed (Json.arr []) := rfl
  refine ⟨h, ?_⟩
  rw [h]
  simp [nonEmptyCandidateList]

/-- Claim C2 (amended): `optimizeRoute` always resolves; on every failure
outcome (transport/quota error, refusal or empty text, parse failure,
stamping error) it resolves with the non-empty 3-candidate fallback, and on
a successful parse it resolves with the parsed value — which may be an empty
array or not an array at all. -/
theorem claim_C2 (outcome : ProviderOutcome) (destination : String)
    (currentBattery : ℚ) (jitter : ℕ) :
    (∃ value, optimizeRoute outcome destination currentBattery jitter =
      OptResult.parsed value) ∨
    (optimizeRoute outcome destination currentBattery jitter =
        OptResult.fallback (fallbackRoutes destination currentBattery jitter) ∧
      (fallbackRoutes destination currentBattery jitter).length = 3) := by
  have h3 : (fallbackRoutes destination currentBattery jitter).length = 3 := rfl
  cases outcome with
  | err m => exact Or.inr ⟨rfl, h3⟩
  | ok response =>
    cases hr : isRefusal (responseText response) with
    | true => exact Or.inr ⟨by simp [optimizeRoute, hr], h3⟩
    | false =>
      cases hp : jsonParse (extractJson (responseText response)) with
      | none => exact Or.inr ⟨by simp [optimizeRoute, hr, hp], h3⟩
      | some routes =>
        cases hg : groundingChunksOf response with
        | none => exact Or.inl ⟨routes, by simp [optimizeRoute, hr, hp, hg]⟩
        | some chunks =>
          cases routes with
          | arr elems =>
            cases hm : stampAll chunks destination elems with
            | none => exact Or.inr ⟨by simp [optimizeRoute, hr, hp, hg, hm], h3⟩
            | some elems2 =>
              exact Or.inl ⟨Json.arr elems2, by simp [optimizeRoute, hr, hp, hg, hm]⟩
          | null => exact Or.inl ⟨Json.null, by simp [optimizeRoute, hr, hp, hg]⟩
          | bool b => exact Or.inl ⟨Json.bool b, by simp [optimizeRoute, hr, hp, hg]⟩
          | num q => exact Or.inl ⟨Json.num q, by simp [optimizeRoute, hr, hp, hg]⟩
          | str s => exact Or.inl ⟨Json.str s, by simp [optimizeRoute, hr, hp, hg]⟩
          | obj fields => exact Or.inl ⟨Json.obj fields, by simp [optimizeRoute, hr, hp, hg]⟩

/-! ## Claim C3: ordering of the fallback variants -/

/-- Claim C3 fails as stated: at `currentBatteryPercent = 0` the base
consumption is negative (`min(0 - 5, 6.4) = -5`), so the multipliers invert
the order — Eco's consumption (−4.5) exceeds Balanced's (−5). -/
theorem claim_C3_counterexample :
    (fallbackRoutes "chennai" 0 0).map
      (fun r => r.estimatedBatteryConsumption) = [-4.5, -6.5, -5] ∧
    ¬ ((-4.5 : ℚ) ≤ -5) := by
  have hd : estimateDistance "chennai" 0 = 32 := rfl
  refine ⟨?_, by norm_num⟩
  norm_num [fallbackRoutes, hd, toFixed1, min_def]

/-- Claim C3 (amended): for every destination and every
`currentBatteryPercent ≥ 5` (so the base consumption is non-negative), the
fallback branch returns exactly 3 candidates, all `isSimulated = true`, with
consumption ordered Eco ≤ Balanced ≤ Fast and duration ordered
Fast ≤ Balanced ≤ Eco. -/
theorem claim_C3 (destination : String) (currentBattery : ℚ) (jitter : ℕ)
    (hbat : 5 ≤ currentBattery) :
    ∃ eco fast bal,
      fallbackRoutes destination currentBattery jitter = [eco, fast, bal] ∧
      eco.isSimulated = some true ∧ fast.isSimulated = some true ∧
      bal.isSimulated = some true ∧
      eco.estimatedBatteryConsumption ≤ bal.estimatedBatteryConsumption ∧
      bal.estimatedBatteryConsumption ≤ fast.estimatedBatteryConsumption ∧
      fast.durationMin ≤ bal.durationMin ∧
      bal.durationMin ≤ eco.durationMin := by
  have hD : 0 < estimateDistance destination jitter :=
    estimateDistance_pos destination jitter
  have hb : 0 ≤ min (currentBattery - 5)
      (estimateDistance destination jitter / 100 * 20) := by
    apply le_min
    · linarith
    · positivity
  have ht : (0 : ℤ) ≤ jsRound (estimateDistance destination jitter * 1.8) := by
    apply jsRound_nonneg
    nlinarith
  have hT : (0 : ℚ) ≤
      ((jsRound (estimateDistance destination jitter * 1.8) : ℤ) : ℚ) := by
    exact_mod_cast ht
  refine ⟨_, _, _, rfl, rfl, rfl, rfl, ?_, ?_, ?_, ?_⟩
  · exact toFixed1_mono (by nlinarith)
  · exact toFixed1_mono (by nlinarith)
  · show ((jsRound (((jsRound (estimateDistance destination jitter * 1.8) : ℤ) : ℚ) * 0.8) : ℤ) : ℚ) ≤
      ((jsRound (((jsRound (estimateDistance destination jitter * 1.8) : ℤ) : ℚ) * 0.95) : ℤ) : ℚ)
    exact_mod_cast jsRound_mono (by nlinarith)
  · show ((jsRound (((jsRound (estimateDistance destination jitter * 1.8) : ℤ) : ℚ) * 0.95) : ℤ) : ℚ) ≤
      ((jsRound (estimateDistance destination jitter * 1.8) : ℤ) : ℚ)
    have h1 : jsRound (((jsRound (estimateDistance destination jitter * 1.8) : ℤ) : ℚ) * 0.95) ≤
        jsRound ((jsRound (estimateDistance destination jitter * 1.8) : ℤ) : ℚ) :=
      jsRound_mono (by nlinarith)
    rw [jsRound_intCast] at h1
    exact_mod_cast h1

/-- Concrete evaluation of claim C3 at the 5 % battery boundary. -/
theorem claim_C3_witness :
    ((5 : ℚ) ≤ 5) ∧
    (∃ eco fast bal,
      fallbackRoutes "chennai" 5 0 = [eco, fast, bal] ∧
      eco.isSimulated = some true ∧ fast.isSimulated = some true ∧
      bal.isSimulated = some true ∧
      eco.estimatedBatteryConsumption ≤ bal.estimatedBatteryConsumption ∧
      bal.estimatedBatteryConsumption ≤ fast.estimatedBatteryConsumption ∧
      fast.durationMin ≤ bal.durationMin ∧
      bal.durationMin ≤ eco.durationMin) :=
  ⟨le_refl 5, claim_C3 "chennai" 5 0 (le_refl 5)⟩

/-! ## Claim C5: the degraded scenario at 80 % battery -/

/-- Claim C5 fails as stated: at battery 80 and destination "bangalore"
(estimated 330 km) the base consumption is `min(75, 66) = 66`, and the Fast
variant carries `66 × 1.3 = 85.8 ≥ 75` — not every candidate stays below the
75 % margin. -/
theorem claim_C5_counterexample :
    (fallbackRoutes "bangalore" 80 0).map
      (fun r => r.estimatedBatteryConsumption) = [59.4, 85.8, 66] ∧
    ¬ ((85.8 : ℚ) < 75) := by
  have hd : estimateDistance "bangalore" 0 = 330 := rfl
  refine ⟨?_, by norm_num⟩
  norm_num [fallbackRoutes, hd, toFixed1, min_def]

/-- Claim C5 (amended): when the provider call fails and
`currentBatteryPercent = 80`, the result is the 3-candidate simulated
fallback with the Eco candidate carrying `isOptimal = true`; the Eco
candidate's consumption is strictly below 75 (battery minus the 5 margin)
and the Balanced candidate's is at most 75, but the Fast candidate can
exceed it. -/
theorem claim_C5 (destination : String) (jitter : ℕ) (message : String) :
    optimizeRoute (ProviderOutcome.err message) destination 80 jitter =
      OptResult.fallback (fallbackRoutes destination 80 jitter) ∧
    ∃ eco fast bal,
      fallbackRoutes destination 80 jitter = [eco, fast, bal] ∧
      eco.isSimulated = some true ∧ fast.isSimulated = some true ∧
      bal.isSimulated = some true ∧ eco.isOptimal = true ∧
      eco.estimatedBatteryConsumption < 75 ∧
      bal.estimatedBatteryConsumption ≤ 75 := by
  have hble : min ((80 : ℚ) - 5) (estimateDistance destination jitter / 100 * 20) ≤ 75 := by
    calc min ((80 : ℚ) - 5) (estimateDistance destination jitter / 100 * 20) ≤ 80 - 5 :=
          min_le_left _ _
      _ = 75 := by norm_num
  refine ⟨rfl, _, _, _, rfl, rfl, rfl, rfl, rfl, ?_, ?_⟩
  · calc toFixed1 (min ((80 : ℚ) - 5)
          (estimateDistance destination jitter / 100 * 20) * 0.9) ≤ toFixed1 67.5 :=
          toFixed1_mono (by nlinarith)
      _ = 67.5 := by norm_num [toFixed1]
      _ < 75 := by norm_num
  · calc toFixed1 (min ((80 : ℚ) - 5)
          (estimateDistance destination jitter / 100 * 20)) ≤ toFixed1 75 :=
          toFixed1_mono hble
      _ = 75 := by norm_num [toFixed1]

/-! ## Claim C6: stamping of successful acquisitions -/

theorem getField_setField_self (f : List (String × Json)) (k : String) (v : Json) :
    getField (setField f k v) k = some v := by
  induction f with
  | nil => simp [setField, getField, List.find?]
  | cons kv rest ih =>
    obtain ⟨k', v'⟩ := kv
    by_cases h : k' = k
    · subst h
      simp [setField, getField, List.find?]
    · simp only [setField, if_neg h]
      simp only [getField, List.find?] at ih ⊢
      simp [h, ih]

theorem getField_setField_ne (f : List (String × Json)) (k k2 : String) (v : Json)
    (h : k ≠ k2) :
    getField (setField f k v) k2 = getField f k2 := by
  induction f with
  | nil => simp [setField, getField, List.find?, h]
  | cons kv rest ih =>
    obtain ⟨k', v'⟩ := kv
    by_cases h2 : k' = k
    · subst h2
      simp [setField, getField, List.find?, h]
    · simp only [setField, if_neg h2]
      simp only [getField, List.find?] at ih ⊢
      by_cases h3 : k' = k2
      · simp [h3]
      · simp [h3, ih]

theorem stampUri_spec (chunks : List GroundingChunk) (destination : String) :
    mapsChunkUri chunks = some (stampUri chunks destination) ∨
    stampUri chunks destination = searchLink destination := by
  unfold stampUri
  cases hm : mapsChunkUri chunks with
  | none => right; rfl
  | some s =>
    cases hse : s.isEmpty with
    | true => right; simp [hse]
    | false => left; simp [hse, hm]

theorem stampRoute_obj_fields (chunks : List GroundingChunk) (destination : String)
    (fields : List (String × Json)) (e' : Json)
    (h : stampRoute chunks destination (Json.obj fields) = some e') :
    objField e' "isSimulated" = some (Json.bool false) ∧
    ∃ uri, objField e' "mapUri" = some (Json.str uri) ∧
      (mapsChunkUri chunks = some uri ∨ uri = searchLink destination) := by
  simp only [stampRoute, Option.some.injEq] at h
  subst h
  refine ⟨getField_setField_self _ _ _, stampUri chunks destination, ?_,
    stampUri_spec chunks destination⟩
  show getField _ "mapUri" = _
  rw [getField_setField_ne _ _ _ _ (by decide)]
  exact getField_setField_self _ _ _

theorem stampAll_fields (chunks : List GroundingChunk) (destination : String) :
    ∀ (elems elems2 : List Json),
      (∀ e ∈ elems, ∃ fields, e = Json.obj fields) →
      stampAll chunks destination elems = some elems2 →
      ∀ e ∈ elems2, objField e "isSimulated" = some (Json.bool false) ∧
        ∃ uri, objField e "mapUri" = some (Json.str uri) ∧
          (mapsChunkUri chunks = some uri ∨ uri = searchLink destination) := by
  intro elems
  induction elems with
  | nil =>
    intro elems2 _ h
    simp only [stampAll, Option.some.injEq] at h
    subst h
    intro e he
    simp at he
  | cons a rest ih =>
    intro elems2 hobj h
    simp only [stampAll] at h
    cases ha : stampRoute chunks destination a with
    | none => rw [ha] at h; simp at h
    | some a2 =>
      rw [ha] at h
      cases hrest : stampAll chunks destination rest with
      | none => rw [hrest] at h; simp at h
      | some rest2 =>
        rw [hrest] at h
        simp only [Option.some.injEq] at h
        subst h
        intro e he
        rcases List.mem_cons.1 he with he | he
        · subst he
          obtain ⟨fields, rfl⟩ := hobj a (List.mem_cons_self a rest)
          exact stampRoute_obj_fields chunks destination fields _ ha
        · exact ih rest2 (fun x hx => hobj x (List.mem_cons_of_mem a hx)) hrest e he

/-- Claim C6 fails as stated: a successful, parseable response without
grounding metadata skips the stamping loop entirely — the returned candidate
neither carries `isSimulated = false` nor any `mapUri`. -/
theorem claim_C6_counterexample :
    optimizeRoute (ProviderOutcome.ok respNoGround) "VIT Chennai" 100 0 =
      OptResult.parsed (Json.arr [Json.obj [("id", Json.str "1")]]) ∧
    objField (Json.obj [("id", Json.str "1")]) "isSimulated" ≠
      some (Json.bool false) ∧
    objField (Json.obj [("id", Json.str "1")]) "mapUri" = none := by
  refine ⟨rfl, ?_, rfl⟩
  have h : objField (Json.obj [("id", Json.str "1")]) "isSimulated" = none := rfl
  rw [h]
  simp

/-- Claim C6 (amended): whenever `optimizeRoute` succeeds AND the response
carries grounding chunks (the `groundingChunks &&` guard), every returned
candidate is stamped with `isSimulated = false` and a `mapUri` that is either
the first truthy grounding maps-uri or the deterministic search link built
from the destination; without grounding chunks the parsed candidates are
returned unmodified. -/
theorem claim_C6 (response : GenResponse) (destination : String)
    (currentBattery : ℚ) (jitter : ℕ) (chunks : List GroundingChunk)
    (elems elems2 : List Json)
    (hrefusal : isRefusal (responseText response) = false)
    (hparse : jsonParse (extractJson (responseText response)) = some (Json.arr elems))
    (hchunks : groundingChunksOf response = some chunks)
    (hobj : ∀ e ∈ elems, ∃ fields, e = Json.obj fields)
    (hstamp : stampAll chunks destination elems = some elems2) :
    optimizeRoute (ProviderOutcome.ok response) destination currentBattery jitter =
      OptResult.parsed (Json.arr elems2) ∧
    ∀ e ∈ elems2, objField e "isSimulated" = some (Json.bool false) ∧
      ∃ uri, objField e "mapUri" = some (Json.str uri) ∧
        (mapsChunkUri chunks = some uri ∨ uri = searchLink destination) := by
  refine ⟨by simp [optimizeRoute, hrefusal, hparse, hchunks, hstamp], ?_⟩
  exact stampAll_fields chunks destination elems elems2 hobj hstamp

/-- Concrete evaluation of claim C6 on a grounded one-route response. -/
theorem claim_C6_witness :
    (isRefusal (responseText respGround) = false ∧
     jsonParse (extractJson (responseText respGround)) =
       some (Json.arr [Json.obj [("id", Json.str "1")]]) ∧
     groundingChunksOf respGround =
       some [{ maps := some { uri := some "https://maps.example/route" } }] ∧
     (∀ e ∈ [Json.obj [("id", Json.str "1")]], ∃ fields, e = Json.obj fields) ∧
     stampAll [{ maps := some { uri := some "https://maps.example/route" } }]
       "VIT Chennai" [Json.obj [("id", Json.str "1")]] =
       some [Json.obj [("id", Json.str "1"),
         ("mapUri", Json.str "https://maps.example/route"),
         ("isSimulated", Json.bool false)]]) ∧
    (optimizeRoute (ProviderOutcome.ok respGround) "VIT Chennai" 100 0 =
      OptResult.parsed (Json.arr [Json.obj [("id", Json.str "1"),
        ("mapUri", Json.str "https://maps.example/route"),
        ("isSimulated", Json.bool false)]]) ∧
     ∀ e ∈ [Json.obj [("id", Json.str "1"),
         ("mapUri", Json.str "https://maps.example/route"),
         ("isSimulated", Json.bool false)]],
       objField e "isSimulated" = some (Json.bool false) ∧
       ∃ uri, objField e "mapUri" = some (Json.str uri) ∧
         (mapsChunkUri [{ maps := some { uri := some "https://maps.example/route" } }] =
            some uri ∨
          uri = searchLink "VIT Chennai")) :=
  ⟨⟨rfl, rfl, rfl, by intro e he; simp at he; exact ⟨_, he⟩, rfl⟩,
   claim_C6 respGround "VIT Chennai" 100 0 _ _ _ rfl rfl rfl
     (by intro e he; simp at he; exact ⟨_, he⟩) rfl⟩

/-! ## Claim C4: unexpected acquisition errors clear the flags -/

/-- Claim C4: if the awaited acquisition rejects, `fetchRoutes` still clears
both the `isUpdating` and `loading` flags and leaves `routes` and
`activeDestination` at their prior values. -/
theorem claim_C4 (st : AppState) (target : String)
    (acq : Except String (List EnhancedRouteOption)) (msg : String)
    (hacq : acq = Except.error msg) :
    fetchRoutes st target acq = { st with isUpdating := false, loading := false } ∧
    (fetchRoutes st target acq).isUpdating = false ∧
    (fetchRoutes st target acq).loading = false ∧
    (fetchRoutes st target acq).routes = st.routes ∧
    (fetchRoutes st target acq).activeDestination = st.activeDestination := by
  subst hacq
  exact ⟨rfl, rfl, rfl, rfl, rfl⟩

/-- Concrete evaluation of claim C4 on the fixture session. -/
theorem claim_C4_witness :
    ((Except.error "boom" : Except String (List EnhancedRouteOption)) =
      Except.error "boom") ∧
    (fetchRoutes sessionFixture "Guindy" (Except.error "boom") =
      { sessionFixture with isUpdating := false, loading := false } ∧
    (fetchRoutes sessionFixture "Guindy" (Except.error "boom")).isUpdating = false ∧
    (fetchRoutes sessionFixture "Guindy" (Except.error "boom")).loading = false ∧
    (fetchRoutes sessionFixture "Guindy" (Except.error "boom")).routes =
      sessionFixture.routes ∧
    (fetchRoutes sessionFixture "Guindy" (Except.error "boom")).activeDestination =
      sessionFixture.activeDestination) :=
  ⟨rfl, claim_C4 sessionFixture "Guindy" (Except.error "boom") "boom" rfl⟩

/-! ## Claim C7: the select-route operation -/

/-- Claim C7 fails as stated: selecting an id that is not among the current
candidates is not a no-op — the raw `setSelectedRouteId` setter changes
`selectedRouteId` anyway. -/
theorem claim_C7_counterexample :
    (sessionFixture.routes.map (fun r => r.id)).contains "ghost" = false ∧
    selectRoute sessionFixture "ghost" ≠ sessionFixture := by
  refine ⟨rfl, ?_⟩
  intro h
  have h2 := congrArg AppState.selectedRouteId h
  exact absurd h2 (by decide)

/-- Claim C7 (amended): the select-route operation sets `selectedRouteId` to
the given id unconditionally — present in the candidates or not — and leaves
every other session field unchanged; the code performs no membership check. -/
theorem claim_C7 (st : AppState) (routeId : String) :
    selectRoute st routeId = { st with selectedRouteId := routeId } ∧
    (selectRoute st routeId).selectedRouteId = routeId ∧
    (selectRoute st routeId).routes = st.routes ∧
    (selectRoute st routeId).loading = st.loading ∧
    (selectRoute st routeId).isUpdating = st.isUpdating ∧
    (selectRoute st routeId).isSimulated = st.isSimulated ∧
    (selectRoute st routeId).activeDestination = st.activeDestination :=
  ⟨rfl, rfl, rfl, rfl, rfl, rfl, rfl⟩

/-! ## Claim C8: the "bangalore" table entry -/

/-- Claim C8 fails as stated: the table is scanned in insertion order, so a
destination containing both "chennai" and "bangalore" hits the earlier
"chennai" entry (32), not 330 — content elsewhere in the string matters. -/
theorem claim_C8_counterexample :
    strContains (jsTrim (jsToLower "chennai to bangalore")) "bangalore" = true ∧
    estimateDistance "chennai to bangalore" 0 = 32 ∧
    (32 : ℚ) ≠ 330 := by
  refine ⟨rfl, rfl, by norm_num⟩

/-- Claim C8 (amended): a destination whose normalized form contains
"bangalore" and none of the table keys that precede it ("chennai", "marina",
"tambaram", "guindy", "pondy", "pondicherry") estimates to 330, regardless
of the string's length. -/
theorem claim_C8 (destination : String) (jitter : ℕ)
    (hb : strContains (jsTrim (jsToLower destination)) "bangalore" = true)
    (h1 : strContains (jsTrim (jsToLower destination)) "chennai" = false)
    (h2 : strContains (jsTrim (jsToLower destination)) "marina" = false)
    (h3 : strContains (jsTrim (jsToLower destination)) "tambaram" = false)
    (h4 : strContains (jsTrim (jsToLower destination)) "guindy" = false)
    (h5 : strContains (jsTrim (jsToLower destination)) "pondy" = false)
    (h6 : strContains (jsTrim (jsToLower destination)) "pondicherry" = false) :
    estimateDistance destination jitter = 330 := by
  simp [estimateDistance, LOCAL_DISTANCE_ESTIMATOR, List.find?,
    hb, h1, h2, h3, h4, h5, h6]

/-- Concrete evaluation of claim C8 at the destination "bangalore". -/
theorem claim_C8_witness :
    (strContains (jsTrim (jsToLower "bangalore")) "bangalore" = true ∧
     strContains (jsTrim (jsToLower "bangalore")) "chennai" = false ∧
     strContains (jsTrim (jsToLower "bangalore")) "marina" = false ∧
     strContains (jsTrim (jsToLower "bangalore")) "tambaram" = false ∧
     strContains (jsTrim (jsToLower "bangalore")) "guindy" = false ∧
     strContains (jsTrim (jsToLower "bangalore")) "pondy" = false ∧
     strContains (jsTrim (jsToLower "bangalore")) "pondicherry" = false) ∧
    estimateDistance "bangalore" 7 = 330 :=
  ⟨⟨rfl, rfl, rfl, rfl, rfl, rfl, rfl⟩,
    claim_C8 "bangalore" 7 rfl rfl rfl rfl rfl rfl rfl⟩

/-! ## Claim C9: the estimator is total and positive -/

/-- Claim C9: for every non-empty destination and admissible jitter in
[0, 9], `estimateDistance` returns a strictly positive number (it is a total
function by construction). -/
theorem claim_C9 (destination : String) (jitter : ℕ)
    (hne : destination ≠ "") (hj : jitter ≤ 9) :
    0 < estimateDistance destination jitter :=
  estimateDistance_pos destination jitter

/-- Concrete evaluation of claim C9 at an unknown destination with maximal
jitter. -/
theorem claim_C9_witness :
    (("zq" : String) ≠ "" ∧ 9 ≤ 9) ∧ 0 < estimateDistance "zq" 9 :=
  ⟨⟨by decide, by decide⟩, claim_C9 "zq" 9 (by decide) (by decide)⟩

end EcoDrive
